import Mathlib

/-!
Shallow embedding of the hardware AI module:
  * `saleor/hardware/gemini_client.py` (`GeminiClient`),
  * `saleor/graphql/hardware/schema.py` (the three mutations),
  * `saleor/hardware/models.py` (the persisted records the mutations write).

The remote Gemini service, blob storage and the relational store are external
collaborators.  Each remote call is modelled by an oracle argument of type
`Except String α`: `Except.ok` is a successful remote reply, `Except.error e`
is a Python exception with message `e` raised during that call.  The relational
store is modelled as an explicit list of rows.  Python string methods used by
the code (`str.strip`, `str.split(",")`) are modelled character-by-character so
that every definition evaluates by kernel reduction.
-/

/-- Model of Python `str.strip()`: remove leading and trailing whitespace. -/
def pyStrip (s : String) : String :=
  ⟨((s.data.dropWhile Char.isWhitespace).reverse.dropWhile Char.isWhitespace).reverse⟩

/-- Helper for `pySplitComma`: accumulates the current segment (reversed). -/
def splitCommaAux : List Char → List Char → List String
  | [], acc => [⟨acc.reverse⟩]
  | c :: rest, acc =>
    if c = ',' then ⟨acc.reverse⟩ :: splitCommaAux rest []
    else splitCommaAux rest (c :: acc)

/-- Model of Python `str.split(",")`: split on every comma; the empty string
yields `[""]`, exactly as in Python. -/
def pySplitComma (s : String) : List String := splitCommaAux s.data []

/-- An uploaded-file handle returned by the remote service
(`genai.upload_file`); its content is irrelevant to the verified logic. -/
structure GeminiFile where
  uri : String
deriving DecidableEq

/-- A product dict as built by `FindSimilarProducts.perform_mutation` and
consumed by `GeminiClient.find_similar_products` (keys `id`, `name`,
`category`, `description`, all strings). -/
structure ProductDict where
  id : String
  name : String
  category : String
  description : String
deriving DecidableEq

/-- One `{role, parts}` turn of a chat history
(`GeminiClient.hardware_chat`, `HardwareChat.history`). -/
structure Turn where
  role : String
  parts : List String
deriving DecidableEq

/-- The dict returned by `GeminiClient.hardware_chat`. -/
structure ChatResult where
  response : String
  history : List Turn
deriving DecidableEq

/-- `GeminiClient._process_uploaded_file`: guess the MIME type
(`mime_type` is the result of `mimetypes.guess_type`, `none` when
undeterminable), then upload (`upload` is the oracle for `genai.upload_file`).
Any exception `e` is re-raised as `ValueError("Error processing file: " + e)`;
an undeterminable MIME type raises `ValueError("Could not determine MIME
type")` before the upload is attempted. -/
def process_uploaded_file (mime_type : Option String)
    (upload : Except String GeminiFile) : Except String GeminiFile :=
  match (match mime_type with
         | none => Except.error "Could not determine MIME type"
         | some _ => upload) with
  | Except.ok f => Except.ok f
  | Except.error e => Except.error ("Error processing file: " ++ e)

/-- The body of the `try` block of `GeminiClient.identify_hardware_from_image`:
process the file, then generate (`generate` is the oracle for
`model.generate_content(...).text`); an error is a raised exception. -/
def identify_hardware_attempt (mime_type : Option String)
    (upload : Except String GeminiFile) (generate : Except String String) :
    Except String String :=
  match process_uploaded_file mime_type upload with
  | Except.error e => Except.error e
  | Except.ok _ =>
    match generate with
    | Except.error e => Except.error e
    | Except.ok text => Except.ok (pyStrip text)

/-- `GeminiClient.identify_hardware_from_image`: returns the stripped response
text; every exception is caught and converted into the string
`"Error processing image: " + e`. -/
def identify_hardware_from_image (mime_type : Option String)
    (upload : Except String GeminiFile) (generate : Except String String) :
    String :=
  match identify_hardware_attempt mime_type upload generate with
  | Except.ok text => text
  | Except.error e => "Error processing image: " ++ e

/-- The id parsing step of `GeminiClient.find_similar_products`:
`[pid.strip() for pid in response.text.strip().split(",")]`. -/
def parse_product_ids (text : String) : List String :=
  (pySplitComma (pyStrip text)).map pyStrip

/-- `GeminiClient.find_similar_products`: process the file, build the prompt,
generate, parse the comma-separated id list, and return
`[p for p in product_database if str(p.get("id", "")) in product_ids]`;
any exception yields `[]`. -/
def find_similar_products (mime_type : Option String)
    (upload : Except String GeminiFile) (product_database : List ProductDict)
    (generate : Except String String) : List ProductDict :=
  match process_uploaded_file mime_type upload with
  | Except.error _ => []
  | Except.ok _ =>
    match generate with
    | Except.error _ => []
    | Except.ok text =>
      let product_ids := parse_product_ids text
      product_database.filter (fun p => decide (p.id ∈ product_ids))

/-- Python truthiness of the `history` argument of
`GeminiClient.hardware_chat` (`list | None`): `None` and `[]` are falsy. -/
def truthyHistory : Option (List Turn) → Bool
  | none => false
  | some [] => false
  | some (_ :: _) => true

/-- `GeminiClient.hardware_chat`: on success, the stripped response text and
`history + [user turn, model turn]` (plain `[user turn, model turn]` when
`history` is falsy); on an exception `e`, the string
`"Error processing query: " + e` and `history or []`. -/
def hardware_chat (query : String) (history : Option (List Turn))
    (generate : Except String String) : ChatResult :=
  match generate with
  | Except.ok text =>
    { response := pyStrip text,
      history :=
        if truthyHistory history then
          (history.getD []) ++
            [⟨"user", [query]⟩, ⟨"model", [pyStrip text]⟩]
        else
          [⟨"user", [query]⟩, ⟨"model", [pyStrip text]⟩] }
  | Except.error e =>
    { response := "Error processing query: " ++ e,
      history := if truthyHistory history then history.getD [] else [] }

/-- A persisted `HardwareChat` row: unique `session_id` and JSON `history`. -/
structure ChatSession where
  session_id : String
  history : List Turn
deriving DecidableEq

/-- Python truthiness of the optional `session_id` mutation input:
absent and `""` are falsy. -/
def truthyStr : Option String → Bool
  | none => false
  | some s => !s.isEmpty

/-- What `HardwareChatMessage.perform_mutation` returns and persists:
the (updated) chat session, the response string, and the created
`HardwareQuery` row (`question`, `answer`). -/
structure ChatMutationResult where
  chat : ChatSession
  response : String
  question : String
  answer : String
deriving DecidableEq

/-- `HardwareChatMessage.perform_mutation`: resolve the session (reusing its
history) when a truthy `session_id` is supplied and found; otherwise create a
fresh session (`session_id := str(uuid.uuid4())`, modelled by the `fresh_id`
oracle) with empty history.  Run `hardware_chat`, store the updated history on
the session, create the query row, and return session and response. -/
def perform_chat_mutation (sessions : List ChatSession)
    (session_id : Option String) (query : String) (fresh_id : String)
    (generate : Except String String) : ChatMutationResult :=
  let pre :=
    if truthyStr session_id then
      match sessions.find? (fun s => s.session_id == session_id.getD "") with
      | some s => s
      | none => { session_id := fresh_id, history := [] }
    else { session_id := fresh_id, history := [] }
  let result := hardware_chat query (some pre.history) generate
  { chat := { session_id := pre.session_id, history := result.history },
    response := result.response,
    question := query,
    answer := result.response }

/-- A catalog `Product` row as read by `FindSimilarProducts.perform_mutation`
(`id` is the integer primary key; `category_id`/`category_name` model the
optional category foreign key). -/
structure StoreProduct where
  id : Nat
  name : String
  category_id : Option Nat
  category_name : String
  description : String
deriving DecidableEq

/-- The candidate set of `FindSimilarProducts.perform_mutation`:
`Product.objects.all()`, optionally filtered by `category_id`, each row turned
into the dict `{"id": str(product.id), "name": ..., "category":
product.category.name if product.category else "", "description": ...}`. -/
def candidate_database (store : List StoreProduct)
    (category_id : Option Nat) : List ProductDict :=
  let q :=
    match category_id with
    | none => store
    | some cid => store.filter (fun p => p.category_id == some cid)
  q.map (fun p =>
    { id := toString p.id,
      name := p.name,
      category := match p.category_id with
                  | none => ""
                  | some _ => p.category_name,
      description := p.description })

/-- What `FindSimilarProducts.perform_mutation` returns and persists: the
`ProductSimilaritySearch` row fields (`identified_component`,
`similar_product_ids`) and the resolved `Product` objects. -/
structure SimilarMutationResult where
  identified_component : String
  similar_product_ids : List String
  similar_products : List StoreProduct
deriving DecidableEq

/-- `FindSimilarProducts.perform_mutation`: build the candidate database, call
`identify_hardware_from_image` and `find_similar_products` (oracles
`gen_identify` / `gen_similar`), truncate to `max_results`, store the matched
ids on the search record, and resolve `Product.objects.filter(id__in=...)`. -/
def perform_find_similar_mutation (store : List StoreProduct)
    (category_id : Option Nat) (max_results : Nat) (mime_type : Option String)
    (upload : Except String GeminiFile) (gen_identify : Except String String)
    (gen_similar : Except String String) : SimilarMutationResult :=
  let product_database := candidate_database store category_id
  let hardware_id_result := identify_hardware_from_image mime_type upload gen_identify
  let similar_products_data :=
    (find_similar_products mime_type upload product_database gen_similar).take max_results
  let product_ids := similar_products_data.map (fun p => p.id)
  { identified_component := hardware_id_result,
    similar_product_ids := product_ids,
    similar_products :=
      store.filter (fun p => decide (toString p.id ∈ product_ids)) }

/-- The ordering the spec describes for `find_similar_products` (remote
response id order, not candidate input order), stated as its own definition so
the code's behaviour can be compared against it: for each parsed id, in reply
order, the candidates carrying that id. -/
def find_similar_response_order (text : String)
    (product_database : List ProductDict) : List ProductDict :=
  (parse_product_ids text).flatMap
    (fun pid => product_database.filter (fun p => p.id == pid))

/-- Sequential successful chat calls threaded through the stored session
history, as `HardwareChatMessage.perform_mutation` does on a resolved session:
each call passes the stored history to `hardware_chat` and stores the returned
history back.  `calls` lists each call's `(query, remote reply)`. -/
def run_chat_calls : List (String × String) → List Turn → List Turn
  | [], h => h
  | (q, t) :: rest, h =>
    run_chat_calls rest (hardware_chat q (some h) (Except.ok t)).history

/-- Helper: threading successful calls through the stored history appends one
user turn and one model turn per call, in call order. -/
theorem run_chat_calls_eq (calls : List (String × String)) (h : List Turn) :
    run_chat_calls calls h
      = h ++ calls.flatMap
          (fun c => [⟨"user", [c.1]⟩, ⟨"model", [pyStrip c.2]⟩]) := by
  induction calls generalizing h with
  | nil => simp [run_chat_calls]
  | cons c rest ih =>
    obtain ⟨q, t⟩ := c
    rw [run_chat_calls, ih]
    cases h with
    | nil => simp [hardware_chat, truthyHistory]
    | cons a h' => simp [hardware_chat, truthyHistory]

/-- Claim C4: after N sequential successful chat calls threaded through the
same session's stored history, the history is exactly one user turn followed
by one model turn per call, in call order, hence of length 2*N; with empty
starting history a single successful call yields exactly those two turns. -/
theorem chat_history_round_trip (calls : List (String × String)) :
    run_chat_calls calls []
      = calls.flatMap (fun c => [⟨"user", [c.1]⟩, ⟨"model", [pyStrip c.2]⟩])
    ∧ (run_chat_calls calls []).length = 2 * calls.length := by
  have h1 := run_chat_calls_eq calls []
  rw [List.nil_append] at h1
  refine ⟨h1, ?_⟩
  rw [h1]
  clear h1
  induction calls with
  | nil => rfl
  | cons c rest ih =>
    simp only [List.flatMap_cons, List.length_append, ih, List.length_cons,
      List.length_nil]
    omega

/-- Claim C5: when the remote call fails, `hardware_chat` returns the error
string `"Error processing query: " + e` as the response and the input history
unchanged (for an absent history, the empty list). -/
theorem hardware_chat_failure_passthrough (query : String) (h : List Turn)
    (e : String) :
    hardware_chat query (some h) (Except.error e)
      = { response := "Error processing query: " ++ e, history := h }
    ∧ hardware_chat query none (Except.error e)
      = { response := "Error processing query: " ++ e, history := [] } := by
  refine ⟨?_, rfl⟩
  cases h with
  | nil => rfl
  | cons a h' => rfl

/-- Claim C10: a chat-message mutation with the empty string as session id
behaves exactly as one with no session id: no lookup happens and a fresh
session is allocated. -/
theorem chat_empty_session_id_as_none (sessions : List ChatSession)
    (query fresh_id : String) (generate : Except String String) :
    perform_chat_mutation sessions (some "") query fresh_id generate
      = perform_chat_mutation sessions none query fresh_id generate := rfl

/-- Claim C2 counterexample: on a path with undeterminable media type the
`try` body of `identify_hardware_from_image` does raise, but the operation
itself catches the fault and returns an error string — a returned value, not
a raised fault, contradicting the claim as stated. -/
theorem identify_mime_counterexample :
    identify_hardware_attempt none (Except.ok ⟨"file"⟩) (Except.ok "GPU")
      = Except.error "Error processing file: Could not determine MIME type"
    ∧ identify_hardware_from_image none (Except.ok ⟨"file"⟩) (Except.ok "GPU")
      = "Error processing image: Error processing file: Could not determine MIME type" :=
  ⟨rfl, rfl⟩

/-- Claim C2 amended: on a path with undeterminable media type the file
processing step `_process_uploaded_file` raises
`ValueError("Error processing file: Could not determine MIME type")`, but
`identify_hardware_from_image` swallows it and returns the string
`"Error processing image: Error processing file: Could not determine MIME
type"` instead of raising. -/
theorem identify_mime_swallowed (upload : Except String GeminiFile)
    (generate : Except String String) :
    process_uploaded_file none upload
      = Except.error "Error processing file: Could not determine MIME type"
    ∧ identify_hardware_from_image none upload generate
      = "Error processing image: Error processing file: Could not determine MIME type" :=
  ⟨rfl, rfl⟩

/-- Claim C7: `identify_hardware_from_image` always returns a string: the
stripped remote text when everything succeeds, otherwise a descriptive
error string — never a raised fault. -/
theorem identify_always_returns_string (mime_type : Option String)
    (upload : Except String GeminiFile) (generate : Except String String) :
    (∃ text, generate = Except.ok text
      ∧ (∃ f, process_uploaded_file mime_type upload = Except.ok f)
      ∧ identify_hardware_from_image mime_type upload generate = pyStrip text)
    ∨ (∃ e, identify_hardware_from_image mime_type upload generate
        = "Error processing image: " ++ e) := by
  cases hp : process_uploaded_file mime_type upload with
  | error e =>
    right
    exact ⟨e, by simp [identify_hardware_from_image, identify_hardware_attempt, hp]⟩
  | ok f =>
    cases hg : generate with
    | error e =>
      right
      exact ⟨e, by simp [identify_hardware_from_image, identify_hardware_attempt, hp]⟩
    | ok t =>
      left
      refine ⟨t, rfl, ⟨f, rfl⟩, ?_⟩
      simp [identify_hardware_from_image, identify_hardware_attempt, hp, hg]

/-- Claim C8: `find_similar_products` returns the empty list whenever the
operation fails — either in file processing or in the remote generate call. -/
theorem find_similar_failure_empty (mime_type : Option String)
    (upload : Except String GeminiFile) (product_database : List ProductDict)
    (generate : Except String String)
    (hfail : (∃ e, process_uploaded_file mime_type upload = Except.error e)
      ∨ (∃ e, generate = Except.error e)) :
    find_similar_products mime_type upload product_database generate = [] := by
  rcases hfail with ⟨e, he⟩ | ⟨e, he⟩
  · simp [find_similar_products, he]
  · cases hp : process_uploaded_file mime_type upload with
    | error e2 => simp [find_similar_products, hp]
    | ok f => simp [find_similar_products, hp, he]

/-- Witness for C8 at a concrete failing input (undeterminable MIME type). -/
theorem find_similar_failure_empty_witness :
    ((∃ e, process_uploaded_file none (Except.ok ⟨"u"⟩) = Except.error e)
      ∨ (∃ e, (Except.ok "1" : Except String String) = Except.error e))
    ∧ find_similar_products none (Except.ok ⟨"u"⟩)
        [⟨"1", "CPU A", "cpu", "da"⟩] (Except.ok "1") = [] :=
  ⟨Or.inl ⟨"Error processing file: Could not determine MIME type", rfl⟩,
   find_similar_failure_empty none (Except.ok ⟨"u"⟩)
     [⟨"1", "CPU A", "cpu", "da"⟩] (Except.ok "1")
     (Or.inl ⟨"Error processing file: Could not determine MIME type", rfl⟩)⟩

/-- Claim C9: the list returned by `find_similar_products` is a subsequence of
the candidate list (no fabricated candidates, input positions used at most
once), and is duplicate-free whenever the candidate list is — even when an id
occurs several times in the remote comma-separated reply. -/
theorem find_similar_nodup_sublist (mime_type : Option String)
    (upload : Except String GeminiFile) (product_database : List ProductDict)
    (generate : Except String String) (hnd : product_database.Nodup) :
    (find_similar_products mime_type upload product_database generate).Sublist
      product_database
    ∧ (find_similar_products mime_type upload product_database generate).Nodup := by
  have hsub : (find_similar_products mime_type upload product_database
      generate).Sublist product_database := by
    cases hp : process_uploaded_file mime_type upload with
    | error e =>
      simp only [find_similar_products, hp]
      exact List.nil_sublist _
    | ok f =>
      cases hg : generate with
      | error e =>
        simp only [find_similar_products, hp, hg]
        exact List.nil_sublist _
      | ok text =>
        simp only [find_similar_products, hp, hg]
        exact List.filter_sublist _
  exact ⟨hsub, hnd.sublist hsub⟩

/-- Witness for C9 at a concrete input whose remote reply repeats an id. -/
theorem find_similar_nodup_sublist_witness :
    ([⟨"1", "CPU A", "cpu", "da"⟩, ⟨"2", "CPU B", "cpu", "db"⟩] :
        List ProductDict).Nodup
    ∧ (find_similar_products (some "image/png") (Except.ok ⟨"u"⟩)
        [⟨"1", "CPU A", "cpu", "da"⟩, ⟨"2", "CPU B", "cpu", "db"⟩]
        (Except.ok "1, 1")).Sublist
        [⟨"1", "CPU A", "cpu", "da"⟩, ⟨"2", "CPU B", "cpu", "db"⟩]
    ∧ (find_similar_products (some "image/png") (Except.ok ⟨"u"⟩)
        [⟨"1", "CPU A", "cpu", "da"⟩, ⟨"2", "CPU B", "cpu", "db"⟩]
        (Except.ok "1, 1")).Nodup :=
  ⟨by decide,
   (find_similar_nodup_sublist (some "image/png") (Except.ok ⟨"u"⟩)
     [⟨"1", "CPU A", "cpu", "da"⟩, ⟨"2", "CPU B", "cpu", "db"⟩]
     (Except.ok "1, 1") (by decide)).1,
   (find_similar_nodup_sublist (some "image/png") (Except.ok ⟨"u"⟩)
     [⟨"1", "CPU A", "cpu", "da"⟩, ⟨"2", "CPU B", "cpu", "db"⟩]
     (Except.ok "1, 1") (by decide)).2⟩

/-- Helper: the result of `find_similar_products` is always a subsequence of
the candidate database. -/
theorem find_similar_products_sublist (mime_type : Option String)
    (upload : Except String GeminiFile) (product_database : List ProductDict)
    (generate : Except String String) :
    (find_similar_products mime_type upload product_database generate).Sublist
      product_database := by
  cases hp : process_uploaded_file mime_type upload with
  | error e =>
    simp only [find_similar_products, hp]
    exact List.nil_sublist _
  | ok f =>
    cases hg : generate with
    | error e =>
      simp only [find_similar_products, hp, hg]
      exact List.nil_sublist _
    | ok text =>
      simp only [find_similar_products, hp, hg]
      exact List.filter_sublist _

/-- Helper: a duplicate-free list each of whose members occurs in `ids` is no
longer than `ids`. -/
theorem nodup_length_le_of_subset {α : Type} [DecidableEq α] {l ids : List α}
    (hnd : l.Nodup) (hsub : ∀ x ∈ l, x ∈ ids) : l.length ≤ ids.length :=
  calc l.length = l.toFinset.card := (List.toFinset_card_of_nodup hnd).symm
    _ ≤ ids.toFinset.card := by
        apply Finset.card_le_card
        intro x hx
        rw [List.mem_toFinset] at hx ⊢
        exact hsub x hx
    _ ≤ ids.length := List.toFinset_card_le ids

/-- Claim C3: the find-similar-products mutation returns at most
`max_results` products (given the store's primary-key uniqueness), and every
returned product's id belongs to the originally queried candidate set. -/
theorem find_similar_mutation_bounds (store : List StoreProduct)
    (category_id : Option Nat) (max_results : Nat) (mime_type : Option String)
    (upload : Except String GeminiFile)
    (gen_identify gen_similar : Except String String)
    (hnd : (store.map (fun p => toString p.id)).Nodup) :
    (perform_find_similar_mutation store category_id max_results mime_type
        upload gen_identify gen_similar).similar_products.length ≤ max_results
    ∧ ∀ p ∈ (perform_find_similar_mutation store category_id max_results
        mime_type upload gen_identify gen_similar).similar_products,
        toString p.id ∈ (candidate_database store category_id).map
          (fun q => q.id) := by
  have hsp : (perform_find_similar_mutation store category_id max_results
      mime_type upload gen_identify gen_similar).similar_products
      = store.filter (fun p => decide (toString p.id ∈
          ((find_similar_products mime_type upload
            (candidate_database store category_id) gen_similar).take
            max_results).map (fun q => q.id))) := rfl
  set db := candidate_database store category_id with hdbdef
  set ids := ((find_similar_products mime_type upload db gen_similar).take
      max_results).map (fun q => q.id) with hidsdef
  have hids_sub : ∀ x ∈ ids, x ∈ db.map (fun q => q.id) := by
    intro x hx
    obtain ⟨p, hp, rfl⟩ := List.mem_map.mp hx
    have hp1 : p ∈ find_similar_products mime_type upload db gen_similar :=
      List.take_subset _ _ hp
    have hp2 : p ∈ db :=
      (find_similar_products_sublist mime_type upload db gen_similar).subset hp1
    exact List.mem_map_of_mem _ hp2
  constructor
  · rw [hsp]
    have hnd2 : ((store.filter (fun p => decide (toString p.id ∈ ids))).map
        (fun p => toString p.id)).Nodup :=
      hnd.sublist ((List.filter_sublist _).map _)
    have hsub : ∀ x ∈ (store.filter
        (fun p => decide (toString p.id ∈ ids))).map
        (fun p => toString p.id), x ∈ ids := by
      intro x hx
      obtain ⟨p, hp, rfl⟩ := List.mem_map.mp hx
      simpa using List.of_mem_filter hp
    calc (store.filter (fun p => decide (toString p.id ∈ ids))).length
        = ((store.filter (fun p => decide (toString p.id ∈ ids))).map
            (fun p => toString p.id)).length := (List.length_map _ _).symm
      _ ≤ ids.length := nodup_length_le_of_subset hnd2 hsub
      _ ≤ max_results := by
          rw [hidsdef, List.length_map, List.length_take]
          exact min_le_left _ _
  · intro p hp
    rw [hsp] at hp
    exact hids_sub _ (by simpa using List.of_mem_filter hp)

/-- Witness for C3 at a concrete input: two catalog products, `max_results = 1`,
remote reply naming both ids. -/
theorem find_similar_mutation_bounds_witness :
    (([⟨1, "CPU A", none, "", "da"⟩, ⟨2, "CPU B", none, "", "db"⟩] :
        List StoreProduct).map (fun p => toString p.id)).Nodup
    ∧ (perform_find_similar_mutation
        [⟨1, "CPU A", none, "", "da"⟩, ⟨2, "CPU B", none, "", "db"⟩]
        none 1 (some "image/png") (Except.ok ⟨"u"⟩)
        (Except.ok "CPU") (Except.ok "2, 1")).similar_products.length ≤ 1
    ∧ ∀ p ∈ (perform_find_similar_mutation
        [⟨1, "CPU A", none, "", "da"⟩, ⟨2, "CPU B", none, "", "db"⟩]
        none 1 (some "image/png") (Except.ok ⟨"u"⟩)
        (Except.ok "CPU") (Except.ok "2, 1")).similar_products,
        toString p.id ∈ (candidate_database
          [⟨1, "CPU A", none, "", "da"⟩, ⟨2, "CPU B", none, "", "db"⟩]
          none).map (fun q => q.id) :=
  ⟨by decide,
   (find_similar_mutation_bounds
     [⟨1, "CPU A", none, "", "da"⟩, ⟨2, "CPU B", none, "", "db"⟩]
     none 1 (some "image/png") (Except.ok ⟨"u"⟩)
     (Except.ok "CPU") (Except.ok "2, 1") (by decide)).1,
   (find_similar_mutation_bounds
     [⟨1, "CPU A", none, "", "da"⟩, ⟨2, "CPU B", none, "", "db"⟩]
     none 1 (some "image/png") (Except.ok ⟨"u"⟩)
     (Except.ok "CPU") (Except.ok "2, 1") (by decide)).2⟩

/-- Claim C6: a chat-message mutation whose truthy session id resolves to no
stored session allocates a new session carrying the freshly generated id and
an empty starting history, and (with the freshness guarantee of the uuid
generator) the returned session id differs from the supplied one. -/
theorem chat_unresolved_session_fresh (sessions : List ChatSession)
    (sid query fresh_id : String) (generate : Except String String)
    (hne : sid ≠ "") (hnotfound : ∀ s ∈ sessions, s.session_id ≠ sid)
    (hfresh : fresh_id ≠ sid) :
    (perform_chat_mutation sessions (some sid) query fresh_id
        generate).chat.session_id = fresh_id
    ∧ (perform_chat_mutation sessions (some sid) query fresh_id
        generate).chat.session_id ≠ sid
    ∧ (perform_chat_mutation sessions (some sid) query fresh_id
        generate).chat.history
      = (hardware_chat query (some []) generate).history := by
  have hie : sid.isEmpty = false := by
    cases heq : sid.isEmpty with
    | true => exact absurd ((String.isEmpty_iff sid).mp heq) hne
    | false => rfl
  have htruthy : truthyStr (some sid) = true := by
    simp [truthyStr, hie]
  have hfind : sessions.find? (fun s => s.session_id == sid) = none := by
    rw [List.find?_eq_none]
    intro s hs
    simpa using hnotfound s hs
  refine ⟨?_, ?_, ?_⟩ <;>
    simp [perform_chat_mutation, htruthy, hfind, hfresh]

/-- Witness for C6 at a concrete input: the stored session "abc" does not
match the supplied id "zzz", so the freshly generated id "fresh-1" is used. -/
theorem chat_unresolved_session_fresh_witness :
    ("zzz" : String) ≠ ""
    ∧ (∀ s ∈ ([⟨"abc", []⟩] : List ChatSession), s.session_id ≠ "zzz")
    ∧ ("fresh-1" : String) ≠ "zzz"
    ∧ (perform_chat_mutation [⟨"abc", []⟩] (some "zzz") "What is a GPU?"
        "fresh-1" (Except.ok "A graphics processor.")).chat.session_id
      = "fresh-1"
    ∧ (perform_chat_mutation [⟨"abc", []⟩] (some "zzz") "What is a GPU?"
        "fresh-1" (Except.ok "A graphics processor.")).chat.session_id ≠ "zzz"
    ∧ (perform_chat_mutation [⟨"abc", []⟩] (some "zzz") "What is a GPU?"
        "fresh-1" (Except.ok "A graphics processor.")).chat.history
      = (hardware_chat "What is a GPU?" (some [])
          (Except.ok "A graphics processor.")).history :=
  ⟨by decide, by decide, by decide,
   (chat_unresolved_session_fresh [⟨"abc", []⟩] "zzz" "What is a GPU?"
     "fresh-1" (Except.ok "A graphics processor.")
     (by decide) (by decide) (by decide)).1,
   (chat_unresolved_session_fresh [⟨"abc", []⟩] "zzz" "What is a GPU?"
     "fresh-1" (Except.ok "A graphics processor.")
     (by decide) (by decide) (by decide)).2.1,
   (chat_unresolved_session_fresh [⟨"abc", []⟩] "zzz" "What is a GPU?"
     "fresh-1" (Except.ok "A graphics processor.")
     (by decide) (by decide) (by decide)).2.2⟩

/-- Claim C1 counterexample: with candidates of ids "1", "2" (in that input
order) and successful remote reply "2, 1", `find_similar_products` returns
the candidates in input order — not in the remote response's id order the
claim states — and the matched-id list stored by the mutation is ["1", "2"],
not the AI-response order ["2", "1"] truncated to the maximum. -/
theorem find_similar_order_counterexample :
    find_similar_products (some "image/png") (Except.ok ⟨"u"⟩)
        [⟨"1", "CPU A", "cpu", "da"⟩, ⟨"2", "CPU B", "cpu", "db"⟩]
        (Except.ok "2, 1")
      = [⟨"1", "CPU A", "cpu", "da"⟩, ⟨"2", "CPU B", "cpu", "db"⟩]
    ∧ find_similar_response_order "2, 1"
        [⟨"1", "CPU A", "cpu", "da"⟩, ⟨"2", "CPU B", "cpu", "db"⟩]
      = [⟨"2", "CPU B", "cpu", "db"⟩, ⟨"1", "CPU A", "cpu", "da"⟩]
    ∧ find_similar_products (some "image/png") (Except.ok ⟨"u"⟩)
        [⟨"1", "CPU A", "cpu", "da"⟩, ⟨"2", "CPU B", "cpu", "db"⟩]
        (Except.ok "2, 1")
      ≠ find_similar_response_order "2, 1"
        [⟨"1", "CPU A", "cpu", "da"⟩, ⟨"2", "CPU B", "cpu", "db"⟩]
    ∧ (perform_find_similar_mutation
        [⟨1, "CPU A", none, "", "da"⟩, ⟨2, "CPU B", none, "", "db"⟩]
        none 3 (some "image/png") (Except.ok ⟨"u"⟩)
        (Except.ok "CPU") (Except.ok "2, 1")).similar_product_ids
      = ["1", "2"]
    ∧ (["1", "2"] : List String) ≠ ["2", "1"] :=
  ⟨by decide, by decide, by decide, by decide, by decide⟩

/-- Claim C1 amended: on a successful remote reply the returned list follows
the candidate input order — it is exactly the input-order filter of the
candidates whose id occurs in the parsed reply, hence a subsequence of the
candidate list — and the matched-id list stored in the
`ProductSimilaritySearch` record is that input-order selection truncated to
the requested maximum. -/
theorem find_similar_order_amended (mime_type : Option String)
    (upload : Except String GeminiFile) (product_database : List ProductDict)
    (text : String) (store : List StoreProduct) (category_id : Option Nat)
    (max_results : Nat) (gen_identify : Except String String)
    (hok : ∃ f, process_uploaded_file mime_type upload = Except.ok f) :
    find_similar_products mime_type upload product_database (Except.ok text)
      = product_database.filter
          (fun p => decide (p.id ∈ parse_product_ids text))
    ∧ (find_similar_products mime_type upload product_database
        (Except.ok text)).Sublist product_database
    ∧ (perform_find_similar_mutation store category_id max_results mime_type
        upload gen_identify (Except.ok text)).similar_product_ids
      = (((candidate_database store category_id).filter
          (fun p => decide (p.id ∈ parse_product_ids text))).take
          max_results).map (fun p => p.id) := by
  obtain ⟨f, hf⟩ := hok
  have h1 : ∀ database : List ProductDict,
      find_similar_products mime_type upload database (Except.ok text)
        = database.filter (fun p => decide (p.id ∈ parse_product_ids text)) := by
    intro database
    simp [find_similar_products, hf]
  refine ⟨h1 product_database, ?_, ?_⟩
  · exact find_similar_products_sublist mime_type upload product_database
      (Except.ok text)
  · show (((find_similar_products mime_type upload
        (candidate_database store category_id) (Except.ok text)).take
        max_results).map (fun p => p.id)) = _
    rw [h1 (candidate_database store category_id)]

/-- Witness for the amended C1 at a concrete input with a successful upload. -/
theorem find_similar_order_amended_witness :
    (∃ f, process_uploaded_file (some "image/png") (Except.ok ⟨"u"⟩)
      = Except.ok f)
    ∧ find_similar_products (some "image/png") (Except.ok ⟨"u"⟩)
        [⟨"1", "CPU A", "cpu", "da"⟩, ⟨"2", "CPU B", "cpu", "db"⟩]
        (Except.ok "2, 1")
      = [⟨"1", "CPU A", "cpu", "da"⟩, ⟨"2", "CPU B", "cpu", "db"⟩].filter
          (fun p => decide (p.id ∈ parse_product_ids "2, 1"))
    ∧ (find_similar_products (some "image/png") (Except.ok ⟨"u"⟩)
        [⟨"1", "CPU A", "cpu", "da"⟩, ⟨"2", "CPU B", "cpu", "db"⟩]
        (Except.ok "2, 1")).Sublist
        [⟨"1", "CPU A", "cpu", "da"⟩, ⟨"2", "CPU B", "cpu", "db"⟩]
    ∧ (perform_find_similar_mutation
        [⟨1, "CPU A", none, "", "da"⟩, ⟨2, "CPU B", none, "", "db"⟩]
        none 3 (some "image/png") (Except.ok ⟨"u"⟩)
        (Except.ok "CPU") (Except.ok "2, 1")).similar_product_ids
      = (((candidate_database
          [⟨1, "CPU A", none, "", "da"⟩, ⟨2, "CPU B", none, "", "db"⟩]
          none).filter
          (fun p => decide (p.id ∈ parse_product_ids "2, 1"))).take 3).map
          (fun p => p.id) :=
  ⟨⟨⟨"u"⟩, rfl⟩,
   (find_similar_order_amended (some "image/png") (Except.ok ⟨"u"⟩)
     [⟨"1", "CPU A", "cpu", "da"⟩, ⟨"2", "CPU B", "cpu", "db"⟩] "2, 1"
     [⟨1, "CPU A", none, "", "da"⟩, ⟨2, "CPU B", none, "", "db"⟩]
     none 3 (Except.ok "CPU") ⟨⟨"u"⟩, rfl⟩).1,
   (find_similar_order_amended (some "image/png") (Except.ok ⟨"u"⟩)
     [⟨"1", "CPU A", "cpu", "da"⟩, ⟨"2", "CPU B", "cpu", "db"⟩] "2, 1"
     [⟨1, "CPU A", none, "", "da"⟩, ⟨2, "CPU B", none, "", "db"⟩]
     none 3 (Except.ok "CPU") ⟨⟨"u"⟩, rfl⟩).2.1,
   (find_similar_order_amended (some "image/png") (Except.ok ⟨"u"⟩)
     [⟨"1", "CPU A", "cpu", "da"⟩, ⟨"2", "CPU B", "cpu", "db"⟩] "2, 1"
     [⟨1, "CPU A", none, "", "da"⟩, ⟨2, "CPU B", none, "", "db"⟩]
     none 3 (Except.ok "CPU") ⟨⟨"u"⟩, rfl⟩).2.2⟩
